import Mathlib

/-
Verification of the enrichment pipeline of the ppt-news-feed backend:
the multi-factor credibility scoring engine (app/analysis/credibility.py),
the per-item enrichment orchestrator and digest state machine
(app/services/digest_service.py), the summary parser (app/ai/summarizer.py),
the illustration requester (app/ai/image_gen.py) and the credibility-weight
update operation (app/api/settings.py).

Python floats are embedded as exact rationals (ℚ); external AI calls are
embedded as oracles (`Except String String` values standing for the outcome
of one provider call: `.ok r` for a returned string, `.error e` for a raised
exception with message `e`).  SQLAlchemy session state is embedded as an
explicit state record that each operation transforms; one run of
`process_digest` maps the persisted state before the run to the persisted
state after its final commit.
-/

namespace PptNewsFeed

/-! ## Numeric helpers: Python `round(x, 1)` and `"%.0f"` formatting.

Python rounds half to even. -/

def qfloor (q : ℚ) : ℤ := Int.floor q

/-- Python `round` to an integer: nearest, ties to even. -/
def roundHalfEven (q : ℚ) : ℤ :=
  let f := qfloor q
  let r := q - (f : ℚ)
  if r < 1/2 then f
  else if 1/2 < r then f + 1
  else if f % 2 = 0 then f else f + 1

/-- Python `round(q, 1)`. -/
def round1 (q : ℚ) : ℚ := (roundHalfEven (q * 10) : ℚ) / 10

/-- Python `f"{q:.0f}"`. -/
def formatF0 (q : ℚ) : String := toString (roundHalfEven q)

/-! ## Python string primitives.

Embedded as structural recursions over `String.data` (Python's whitespace
set is approximated by the ASCII whitespace characters, which is what the
parsed provider responses contain). -/

/-- Python `s.strip()`. -/
def pyStrip (s : String) : String :=
  ⟨(((s.data.dropWhile Char.isWhitespace).reverse).dropWhile Char.isWhitespace).reverse⟩

/-- Python `s.startswith(pre)`. -/
def pyStartsWith (s pre : String) : Bool :=
  pre.data.isPrefixOf s.data

/-- Loop of Python `s.replace(pat, rep)` (all non-overlapping occurrences,
left to right); `fuel` bounds the recursion and any value at least the
length of the remaining text is exact. -/
def pyReplaceLoop (pat rep : List Char) : ℕ → List Char → List Char
  | _, [] => []
  | 0, l => l
  | fuel + 1, c :: rest =>
    if pat.isPrefixOf (c :: rest) then
      rep ++ pyReplaceLoop pat rep fuel ((c :: rest).drop pat.length)
    else c :: pyReplaceLoop pat rep fuel rest

/-- Python `s.replace(pat, rep)` for a non-empty `pat`. -/
def pyReplace (s pat rep : String) : String :=
  if pat.data = [] then s
  else ⟨pyReplaceLoop pat.data rep.data s.data.length s.data⟩

/-- Python `s.split(sep)` for a one-character separator. -/
def pySplitChar (sep : Char) : List Char → List (List Char)
  | [] => [[]]
  | x :: xs =>
    let r := pySplitChar sep xs
    if x = sep then [] :: r
    else
      match r with
      | h :: t => (x :: h) :: t
      | [] => [[x]]

def pySplit (s : String) (sep : Char) : List String :=
  (pySplitChar sep s.data).map (fun l => ⟨l⟩)

/-- Python `s.lower()`. -/
def pyLower (s : String) : String := ⟨s.data.map Char.toLower⟩

/-- Python `w.capitalize()` on an already-lowercase word (as `.title()`
produces word-wise). -/
def pyCapitalizeWord (s : String) : String :=
  match s.data with
  | [] => ""
  | c :: cs => ⟨Char.toUpper c :: cs⟩

/-- Join a list of strings with a separator (Python `sep.join(words)`). -/
def pyJoin (sep : String) : List String → String
  | [] => ""
  | [w] => w
  | w :: ws => w ++ sep ++ pyJoin sep ws

/-! ## Data model (app/models/paper.py, app/models/digest.py).

`published_days_ago` embeds `(datetime.utcnow() - paper.published_date).days`
for a fixed "now", the only use the scoring engine makes of the date. -/

structure Author where
  name : String
  h_index : Option ℤ
deriving DecidableEq

/-- One factor's entry in the credibility breakdown map built by
`CredibilityAnalyzer.analyze`. -/
structure FactorEntry where
  score : ℚ
  weight : ℚ
  weighted_score : ℚ
  details : String
deriving DecidableEq

/-- The breakdown dict keyed by the six factor names, in insertion order. -/
structure Breakdown where
  journal_impact : FactorEntry
  author_hindex : FactorEntry
  sample_size : FactorEntry
  methodology : FactorEntry
  peer_review : FactorEntry
  citation_velocity : FactorEntry
deriving DecidableEq

structure Paper where
  title : String
  abstract : Option String
  journal : Option String
  published_days_ago : Option ℤ
  citations : Option ℤ
  journal_impact_factor : Option ℚ
  is_peer_reviewed : Bool
  is_preprint : Bool
  authors : List Author
  credibility_score : Option ℚ
  credibility_breakdown : Option Breakdown
  credibility_note : Option String
  summary_headline : Option String
  summary_takeaway : Option String
  summary_why_matters : Option String
  key_takeaways : Option (List String)
  tags : Option (List String)
  image_path : Option String
  image_prompt : Option String
  study_type : Option String
  sample_size : Option ℤ
  methodology_quality : Option String
deriving DecidableEq

/-- A completely unenriched paper with only immutable fetched attributes. -/
def blankPaper : Paper :=
  { title := "", abstract := none, journal := none, published_days_ago := none,
    citations := none, journal_impact_factor := none,
    is_peer_reviewed := false, is_preprint := false, authors := [],
    credibility_score := none, credibility_breakdown := none,
    credibility_note := none, summary_headline := none,
    summary_takeaway := none, summary_why_matters := none,
    key_takeaways := none, tags := none, image_path := none,
    image_prompt := none, study_type := none, sample_size := none,
    methodology_quality := none }

inductive DigestStatus where
  | pending
  | processing
  | completed
  | failed
deriving DecidableEq

structure Digest where
  name : String
  status : DigestStatus
  error_message : Option String
  ai_provider : String
  ai_model : String
  summary_style : String
  intro_text : Option String
  connecting_narrative : Option String
  conclusion_text : Option String
  summary_image_path : Option String
  processed_at : Bool
deriving DecidableEq

/-! ## Scoring configuration (app/models/app_settings.py defaults and
CredibilityAnalyzer._get_weights). -/

structure Weights where
  journal_impact : ℚ
  author_hindex : ℚ
  sample_size : ℚ
  methodology : ℚ
  peer_review : ℚ
  citation_velocity : ℚ
deriving DecidableEq

def defaultWeights : Weights :=
  { journal_impact := 0.25, author_hindex := 0.15, sample_size := 0.20,
    methodology := 0.20, peer_review := 0.10, citation_velocity := 0.10 }

/-! ## The four piecewise-linear sub-score curves
(CredibilityAnalyzer._score_journal_impact, _score_author_hindex,
_score_sample_size, _score_citation_velocity: the arithmetic applied once
the input value is known to be present). -/

def journalImpactCurve (x : ℚ) : ℚ :=
  if x < 5 then (x / 5) * 50
  else if x < 20 then 50 + ((x - 5) / 15) * 30
  else min 100 (80 + ((x - 20) / 30) * 20)

def authorHindexCurve (h : ℚ) : ℚ :=
  if h < 10 then (h / 10) * 40
  else if h < 30 then 40 + ((h - 10) / 20) * 30
  else if h < 60 then 70 + ((h - 30) / 30) * 20
  else min 100 (90 + ((h - 60) / 40) * 10)

def sampleSizeCurve (n : ℚ) : ℚ :=
  if n < 30 then 20 + (n / 30) * 20
  else if n < 100 then 40 + ((n - 30) / 70) * 20
  else if n < 1000 then 60 + ((n - 100) / 900) * 25
  else min 100 (85 + (min n 10000 - 1000) / 9000 * 15)

def citationVelocityCurve (v : ℚ) : ℚ :=
  if v < 1 then 30 + v * 20
  else if v < 5 then 50 + ((v - 1) / 4) * 20
  else if v < 20 then 70 + ((v - 5) / 15) * 20
  else min 100 (90 + (min v 100 - 20) / 80 * 10)

/-! ## Scoring engine (app/analysis/credibility.py).

The two one-time AI extraction calls are embedded as a `ScoreOracle`: the
outcome of the provider `complete` call for the sample-size prompt and for
the methodology prompt (`.error` also covers `get_ai_provider` raising,
since both sit under the same bare `except`). -/

instance {ε α : Type} [DecidableEq ε] [DecidableEq α] : DecidableEq (Except ε α)
  | .ok a, .ok b =>
    if h : a = b then .isTrue (by rw [h]) else .isFalse (by intro he; cases he; exact h rfl)
  | .ok _, .error _ => .isFalse (by intro h; cases h)
  | .error _, .ok _ => .isFalse (by intro h; cases h)
  | .error a, .error b =>
    if h : a = b then .isTrue (by rw [h]) else .isFalse (by intro he; cases he; exact h rfl)

structure ScoreOracle where
  sampleSizeResp : Except String String
  methodologyResp : Except String String
deriving DecidableEq

/-- Python `bool(paper.abstract)` is false for both `None` and `""`. -/
def hasAbstract (p : Paper) : Bool := p.abstract.getD "" != ""

/-- Value of a Nat written in decimal digits. -/
def digitsToNat (l : List Char) : ℕ :=
  l.foldl (fun n c => 10 * n + (c.toNat - 48)) 0

/-- `re.findall(r'\d+', s)` followed by `int(numbers[0])`: the first maximal
run of decimal digits in `s`, if any. -/
def firstNumber (s : String) : Option ℕ :=
  go s.data
where
  go : List Char → Option ℕ
    | [] => none
    | c :: cs =>
      if c.isDigit then some (digitsToNat (c :: cs.takeWhile Char.isDigit))
      else go cs

/-- CredibilityAnalyzer._extract_sample_size. -/
def extractSampleSize (o : ScoreOracle) (p : Paper) : Option ℤ :=
  if hasAbstract p then
    match o.sampleSizeResp with
    | .error _ => none
    | .ok resp => (firstNumber resp).map Int.ofNat
  else none

/-- CredibilityAnalyzer._score_journal_impact. -/
def scoreJournalImpact (p : Paper) : ℚ :=
  match p.journal_impact_factor with
  | none => 50
  | some x => journalImpactCurve x

/-- CredibilityAnalyzer._score_author_hindex (max h-index among authors). -/
def scoreAuthorHindex (p : Paper) : ℚ :=
  match p.authors with
  | [] => 50
  | la =>
    match la.filterMap Author.h_index with
    | [] => 50
    | h :: t => authorHindexCurve ((t.foldl max h : ℤ) : ℚ)

/-- CredibilityAnalyzer._get_author_details.  Python `max(key=...)` keeps the
first element whose key is maximal. -/
def getAuthorDetails (p : Paper) : String :=
  match p.authors with
  | [] => "No author information"
  | la =>
    match la.filterMap (fun a => a.h_index.map (fun h => (a.name, h))) with
    | [] => "Author h-indices not available"
    | x :: t =>
      let top := t.foldl (fun best y => if best.2 < y.2 then y else best) x
      "Top author h-index: " ++ toString top.2 ++ " (" ++ top.1 ++ ")"

/-- CredibilityAnalyzer._score_sample_size: mutates `paper.sample_size` the
first time, then maps it through the curve (neutral 50 when still unset). -/
def scoreSampleSize (o : ScoreOracle) (p : Paper) : Paper × ℚ :=
  let p1 := if p.sample_size = none
            then { p with sample_size := extractSampleSize o p } else p
  (p1, match p1.sample_size with
       | none => 50
       | some n => sampleSizeCurve (n : ℚ))

def validMethodologies : List String :=
  ["meta_analysis", "systematic_review", "rct", "cohort",
   "case_control", "cross_sectional", "case_report", "opinion"]

/-- `response.strip().lower().replace(" ", "_")`. -/
def normalizeMethodology (resp : String) : String :=
  pyReplace (pyLower (pyStrip resp)) " " "_"

/-- `methodology.replace("_", " ").title()`. -/
def methodologyTitle (m : String) : String :=
  pyJoin " " ((pySplit (pyReplace m "_" " ") ' ').map pyCapitalizeWord)

/-- CredibilityAnalyzer._assess_methodology: `(study_type, methodology_quality)`. -/
def assessMethodology (o : ScoreOracle) (p : Paper) : Option String × String :=
  if hasAbstract p then
    match o.methodologyResp with
    | .error _ => (none, "unknown")
    | .ok resp =>
      let m := normalizeMethodology resp
      if m ∈ validMethodologies then (some (methodologyTitle m), m)
      else (none, "unknown")
  else (none, "unknown")

/-- The `quality_scores` dict lookup with default 50
(`quality_scores.get(paper.methodology_quality, 50)`). -/
def methodologyQualityScore (mq : Option String) : ℚ :=
  match mq with
  | none => 50
  | some m =>
    if m = "meta_analysis" then 95
    else if m = "systematic_review" then 90
    else if m = "rct" then 85
    else if m = "cohort" then 70
    else if m = "case_control" then 60
    else if m = "cross_sectional" then 50
    else if m = "case_report" then 30
    else if m = "opinion" then 20
    else if m = "unknown" then 50
    else 50

/-- CredibilityAnalyzer._score_methodology: assesses and caches the category
the first time, then scores from the lookup table. -/
def scoreMethodology (o : ScoreOracle) (p : Paper) : Paper × ℚ :=
  let p1 := if p.methodology_quality = none then
              let a := assessMethodology o p
              { p with study_type := a.1, methodology_quality := some a.2 }
            else p
  (p1, methodologyQualityScore p1.methodology_quality)

/-- CredibilityAnalyzer._score_peer_review. -/
def scorePeerReview (p : Paper) : ℚ :=
  if p.is_preprint then 40
  else if p.is_peer_reviewed then 100 else 50

/-- CredibilityAnalyzer._score_citation_velocity:
`months = max(1, (now - published_date).days / 30)`, `velocity = citations / months`. -/
def scoreCitationVelocity (p : Paper) : ℚ :=
  match p.citations, p.published_days_ago with
  | some c, some d =>
    let months : ℚ := max 1 ((d : ℚ) / 30)
    citationVelocityCurve ((c : ℚ) / months)
  | _, _ => 50

/-- Python `x or y` on an optional numeric field rendered into an f-string:
`None` and `0` both fall back. -/
def showOrQ (x : Option ℚ) (fallback : String) : String :=
  match x with
  | none => fallback
  | some v => if v = 0 then fallback else toString v

def showOrZ (x : Option ℤ) (fallback : String) : String :=
  match x with
  | none => fallback
  | some v => if v = 0 then fallback else toString v

/-- CredibilityAnalyzer._generate_credibility_note: the deterministic
fallback note, bucketed by total score. -/
def noteBucket (score : ℚ) : String :=
  if 90 ≤ score then "Excellent credibility"
  else if 80 ≤ score then "High credibility"
  else if 60 ≤ score then "Moderate credibility"
  else if 40 ≤ score then "Mixed credibility"
  else "Low credibility"

def generateCredibilityNote (score : ℚ) : String :=
  noteBucket score ++ " (" ++ formatF0 score ++ "/100). Full AI assessment pending."

/-- CredibilityAnalyzer.analyze: returns the mutated paper, the rounded total
score, the breakdown and the deterministic note. -/
def analyze (w : Weights) (o : ScoreOracle) (p : Paper) : Paper × ℚ × Breakdown × String :=
  let js := scoreJournalImpact p
  let ahs := scoreAuthorHindex p
  let sres := scoreSampleSize o p
  let p1 := sres.1
  let ss := sres.2
  let mres := scoreMethodology o p1
  let p2 := mres.1
  let ms := mres.2
  let rs := scorePeerReview p2
  let cs := scoreCitationVelocity p2
  let breakdown : Breakdown :=
    { journal_impact :=
        ⟨js, w.journal_impact, js * w.journal_impact,
         "Impact factor: " ++ showOrQ p.journal_impact_factor "Unknown"⟩,
      author_hindex :=
        ⟨ahs, w.author_hindex, ahs * w.author_hindex, getAuthorDetails p⟩,
      sample_size :=
        ⟨ss, w.sample_size, ss * w.sample_size,
         "Sample size: " ++ showOrZ p1.sample_size "Not assessed"⟩,
      methodology :=
        ⟨ms, w.methodology, ms * w.methodology,
         "Study type: " ++ (p2.study_type.getD "Not assessed")⟩,
      peer_review :=
        ⟨rs, w.peer_review, rs * w.peer_review,
         if p2.is_peer_reviewed then "Peer-reviewed" else "Preprint (not peer-reviewed)"⟩,
      citation_velocity :=
        ⟨cs, w.citation_velocity, cs * w.citation_velocity,
         "Citations: " ++ showOrZ p2.citations "0"⟩ }
  let total := breakdown.journal_impact.weighted_score
    + breakdown.author_hindex.weighted_score
    + breakdown.sample_size.weighted_score
    + breakdown.methodology.weighted_score
    + breakdown.peer_review.weighted_score
    + breakdown.citation_velocity.weighted_score
  (p2, round1 total, breakdown, generateCredibilityNote total)

/-! ## AI credibility note (CredibilityAnalyzer.generate_ai_credibility_note).

`providerCtor` is the outcome of `get_ai_provider` (raises on unknown
provider), `completeResp` the outcome of the provider `complete` call. -/

structure NoteOracle where
  providerCtor : Except String Unit
  completeResp : Except String String
deriving DecidableEq

def generateAICredibilityNote (o : NoteOracle) (score : ℚ) : String :=
  match o.providerCtor with
  | .error _ => generateCredibilityNote score
  | .ok _ =>
    match o.completeResp with
    | .ok resp => pyStrip resp
    | .error _ => generateCredibilityNote score

/-! ## Summarizer (app/ai/summarizer.py): response parsing. -/

structure PaperSummary where
  headline : String
  takeaway : String
  why_matters : String
  key_takeaways : List String
  tags : List String
deriving DecidableEq

/-- Parser state of Summarizer._parse_summary's line loop; `curLabel` and
`curText` embed the `current_takeaway` dict's two keys. -/
structure ParseState where
  headline : String := ""
  takeaway : String := ""
  why_matters : String := ""
  key_takeaways : List String := []
  tags : List String := []
  curLabel : Option String := none
  curText : Option String := none
deriving DecidableEq

/-- `[t.strip() for t in tags_str.split(",") if t.strip()]`. -/
def splitTags (s : String) : List String :=
  ((pySplit s ',').map pyStrip).filter (fun t => t ≠ "")

/-- The shared body of the three `KEY_TAKEAWAY_i_TEXT:` branches: store the
text, and flush label+text into `key_takeaways` when both are present. -/
def flushTakeaway (st : ParseState) (txt : String) : ParseState :=
  match st.curLabel with
  | some l =>
    { st with key_takeaways := st.key_takeaways ++ ["**" ++ l ++ "**: " ++ txt],
              curLabel := none, curText := none }
  | none => { st with curText := some txt }

def parseLine (st : ParseState) (line0 : String) : ParseState :=
  let line := pyStrip line0
  if line = "" then st
  else if pyStartsWith line "HEADLINE:" then
    { st with headline := pyStrip (pyReplace line "HEADLINE:" "") }
  else if pyStartsWith line "TAKEAWAY:" then
    { st with takeaway := pyStrip (pyReplace line "TAKEAWAY:" "") }
  else if pyStartsWith line "WHY_MATTERS:" then
    { st with why_matters := pyStrip (pyReplace line "WHY_MATTERS:" "") }
  else if pyStartsWith line "KEY_TAKEAWAY_1_LABEL:" then
    { st with curLabel := some (pyStrip (pyReplace line "KEY_TAKEAWAY_1_LABEL:" "")) }
  else if pyStartsWith line "KEY_TAKEAWAY_1_TEXT:" then
    flushTakeaway st (pyStrip (pyReplace line "KEY_TAKEAWAY_1_TEXT:" ""))
  else if pyStartsWith line "KEY_TAKEAWAY_2_LABEL:" then
    { st with curLabel := some (pyStrip (pyReplace line "KEY_TAKEAWAY_2_LABEL:" "")) }
  else if pyStartsWith line "KEY_TAKEAWAY_2_TEXT:" then
    flushTakeaway st (pyStrip (pyReplace line "KEY_TAKEAWAY_2_TEXT:" ""))
  else if pyStartsWith line "KEY_TAKEAWAY_3_LABEL:" then
    { st with curLabel := some (pyStrip (pyReplace line "KEY_TAKEAWAY_3_LABEL:" "")) }
  else if pyStartsWith line "KEY_TAKEAWAY_3_TEXT:" then
    flushTakeaway st (pyStrip (pyReplace line "KEY_TAKEAWAY_3_TEXT:" ""))
  else if pyStartsWith line "TAGS:" then
    { st with tags := splitTags (pyStrip (pyReplace line "TAGS:" "")) }
  else st

/-- The fallback loop for the old `KEY_TAKEAWAY_i:` format (runs over the raw
lines, without the per-line strip). -/
def fallbackTakeaways (lines : List String) : List String :=
  lines.foldl (fun acc line =>
    if pyStartsWith line "KEY_TAKEAWAY_1:" then
      acc ++ [pyStrip (pyReplace line "KEY_TAKEAWAY_1:" "")]
    else if pyStartsWith line "KEY_TAKEAWAY_2:" then
      acc ++ [pyStrip (pyReplace line "KEY_TAKEAWAY_2:" "")]
    else if pyStartsWith line "KEY_TAKEAWAY_3:" then
      acc ++ [pyStrip (pyReplace line "KEY_TAKEAWAY_3:" "")]
    else acc) []

def defaultTakeawayText : String :=
  "Use this knowledge to improve your understanding of the world."

/-- Summarizer._parse_summary. -/
def parseSummary (response : String) : PaperSummary :=
  let lines := pySplit (pyStrip response) '\n'
  let st := lines.foldl parseLine {}
  let kt0 := if st.key_takeaways = [] then fallbackTakeaways lines else st.key_takeaways
  let kt := kt0 ++ List.replicate (3 - kt0.length) defaultTakeawayText
  { headline := if st.headline = "" then "Research Finding" else st.headline,
    takeaway := if st.takeaway = "" then "Summary not available." else st.takeaway,
    why_matters := if st.why_matters = "" then "Implications being assessed." else st.why_matters,
    key_takeaways := kt.take 3,
    tags := if st.tags = [] then ["research"] else st.tags }

/-! ## Illustration requester (app/ai/image_gen.py).

`promptResp` is the outcome of the `complete` call inside `_create_prompt`
(made before the `try`, so its exception propagates); `genResp` is the
outcome of `provider.generate_image` (inside the `try`, so an exception is
swallowed and the empty string returned; `.ok ""` is the provider's own
"no image produced" result). -/

structure ImageOracle where
  promptResp : Except String String
  genResp : Except String String
deriving DecidableEq

def daVinciSuffix : String :=
  ". Leonardo da Vinci style technical sketch, sepia ink on aged parchment, renaissance scientific illustration, detailed cross-hatching, anatomical precision, vintage scientific diagram with arrows and annotations, hand-drawn infographic elements, masterful linework, museum quality scientific art."

/-- ImageGenerator.generate: returns the mutated paper (image_prompt is
assigned before the guarded generation call) and the returned reference. -/
def imageGenerate (o : ImageOracle) (p : Paper) : Except String (Paper × String) :=
  match o.promptResp with
  | .error e => .error e
  | .ok resp =>
    let prompt := pyStrip resp ++ daVinciSuffix
    let p1 := { p with image_prompt := some prompt }
    match o.genResp with
    | .error _ => .ok (p1, "")
    | .ok path => .ok (p1, path)

/-! ## Enrichment orchestrator: the per-item body of
DigestService.process_digest (lines 105-136), spec contract `enrich`.
The second component is the unhandled exception's message, if one was
raised; on exception the paper carries all mutations made before it. -/

structure PaperOracle where
  score : ScoreOracle
  note : NoteOracle
  summaryResp : Except String String
  image : ImageOracle
deriving DecidableEq

/-- Step 1: `if paper.credibility_score is None:` score, then AI note. -/
def enrichStep1 (w : Weights) (o : PaperOracle) (p : Paper) : Paper :=
  if p.credibility_score = none then
    let r := analyze w o.score p
    let note := generateAICredibilityNote o.note r.2.1
    { r.1 with credibility_score := some r.2.1,
               credibility_breakdown := some r.2.2.1,
               credibility_note := some note }
  else p

/-- Step 2: `if paper.summary_headline is None:` summarize and persist the
five summary fields.  `summarizer.summarize` re-raises the provider call's
exception. -/
def enrichStep2 (o : PaperOracle) (p : Paper) : Paper × Option String :=
  if p.summary_headline = none then
    match o.summaryResp with
    | .error e => (p, some e)
    | .ok resp =>
      let s := parseSummary resp
      ({ p with summary_headline := some s.headline,
                summary_takeaway := some s.takeaway,
                summary_why_matters := some s.why_matters,
                key_takeaways := some s.key_takeaways,
                tags := some s.tags }, none)
  else (p, none)

/-- Step 3: `if paper.image_path is None:` generate and persist (possibly
empty) illustration reference. -/
def enrichStep3 (o : PaperOracle) (p : Paper) : Paper × Option String :=
  if p.image_path = none then
    match imageGenerate o.image p with
    | .error e => (p, some e)
    | .ok pr => ({ pr.1 with image_path := some pr.2 }, none)
  else (p, none)

/-- The whole per-item enrichment step, in source order. -/
def enrich (w : Weights) (o : PaperOracle) (p : Paper) : Paper × Option String :=
  let p1 := enrichStep1 w o p
  let r2 := enrichStep2 o p1
  match r2.2 with
  | some e => (r2.1, some e)
  | none => enrichStep3 o r2.1

/-! ## Digest pipeline (DigestService.process_digest). -/

/-- One oracle per external interaction of a digest run.  `perPaper i` is
the oracle for the i-th paper, `ctorInit` the outcome of constructing the
Summarizer (its `get_ai_provider` can raise). -/
structure DigestOracle where
  ctorInit : Except String Unit
  perPaper : ℕ → PaperOracle
  introResp : Except String String
  narrativeResp : Except String String
  conclusionResp : Except String String
  summaryImage : ImageOracle

/-- The item loop: enrich papers in stored order, stopping at the first
unhandled exception; papers after the failing one are untouched.  (The
final commit in the `except` branch persists the partially mutated failing
paper as well, so the failing paper carries its pre-exception mutations.) -/
def processPapers (w : Weights) (os : ℕ → PaperOracle) : ℕ → List Paper → List Paper × Option String
  | _, [] => ([], none)
  | i, p :: rest =>
    let r := enrich w (os i) p
    match r.2 with
    | some e => (r.1 :: rest, some e)
    | none =>
      let rec' := processPapers w os (i + 1) rest
      (r.1 :: rec'.1, rec'.2)

/-- Persisted state a digest run operates on: the digest row plus its
papers in stored order. -/
structure PipelineState where
  digest : Digest
  papers : List Paper

/-- DigestService.process_digest: persisted state after the run's final
commit.  Mirrors the source's control flow: set PROCESSING; construct
services; enrich each paper; three digest-level completions; summary
infographic (prompt call unguarded, generation call guarded); COMPLETED --
any unhandled exception instead sets FAILED with the exception's message,
keeping all mutations made so far. -/
def process_digest (w : Weights) (o : DigestOracle) (st : PipelineState) : PipelineState :=
  let d := { st.digest with status := DigestStatus.processing }
  match o.ctorInit with
  | .error e =>
    { digest := { d with status := DigestStatus.failed, error_message := some e },
      papers := st.papers }
  | .ok _ =>
    let papers1 := (processPapers w o.perPaper 0 st.papers).1
    match (processPapers w o.perPaper 0 st.papers).2 with
    | some e =>
      { digest := { d with status := DigestStatus.failed, error_message := some e },
        papers := papers1 }
    | none =>
      match o.introResp with
      | .error e =>
        { digest := { d with status := DigestStatus.failed, error_message := some e },
          papers := papers1 }
      | .ok intro =>
        match o.narrativeResp with
        | .error e =>
          { digest := { d with status := DigestStatus.failed, error_message := some e },
            papers := papers1 }
        | .ok narrative =>
          match o.conclusionResp with
          | .error e =>
            { digest := { d with status := DigestStatus.failed, error_message := some e },
              papers := papers1 }
          | .ok conclusion =>
            let d1 := { d with intro_text := some (pyStrip intro),
                               connecting_narrative := some (pyStrip narrative),
                               conclusion_text := some (pyStrip conclusion) }
            match o.summaryImage.promptResp with
            | .error e =>
              { digest := { d1 with status := DigestStatus.failed, error_message := some e },
                papers := papers1 }
            | .ok _ =>
              let sip := match o.summaryImage.genResp with
                         | .error _ => ""
                         | .ok path => path
              { digest := { d1 with summary_image_path := some sip,
                                    status := DigestStatus.completed,
                                    processed_at := true },
                papers := papers1 }

/-- The first unhandled exception of a digest run, if any: specification-side
mirror of the pipeline's failure sources in source order. -/
def pipelineError (w : Weights) (o : DigestOracle) (st : PipelineState) : Option String :=
  match o.ctorInit with
  | .error e => some e
  | .ok _ =>
    match (processPapers w o.perPaper 0 st.papers).2 with
    | some e => some e
    | none =>
      match o.introResp with
      | .error e => some e
      | .ok _ =>
        match o.narrativeResp with
        | .error e => some e
        | .ok _ =>
          match o.conclusionResp with
          | .error e => some e
          | .ok _ =>
            match o.summaryImage.promptResp with
            | .error e => some e
            | .ok _ => none

/-! ## Credibility-weight update (app/api/settings.py,
update_credibility_weights). -/

structure AppSettingsW where
  journal_impact_weight : ℚ := 0.25
  author_hindex_weight : ℚ := 0.15
  sample_size_weight : ℚ := 0.20
  methodology_weight : ℚ := 0.20
  peer_review_weight : ℚ := 0.10
  citation_velocity_weight : ℚ := 0.10
deriving DecidableEq

/-- CredibilityWeightsUpdateRequest: six optional floats, each validated to
`0 <= v <= 1`; `none` embeds a field absent from the request
(`exclude_unset=True`). -/
structure WeightsUpdateRequest where
  journal_impact_weight : Option ℚ := none
  author_hindex_weight : Option ℚ := none
  sample_size_weight : Option ℚ := none
  methodology_weight : Option ℚ := none
  peer_review_weight : Option ℚ := none
  citation_velocity_weight : Option ℚ := none
deriving DecidableEq

/-- The pydantic `ge=0, le=1` validation on every submitted field. -/
def validRequest (r : WeightsUpdateRequest) : Prop :=
  (∀ v ∈ r.journal_impact_weight, 0 ≤ v ∧ v ≤ 1) ∧
  (∀ v ∈ r.author_hindex_weight, 0 ≤ v ∧ v ≤ 1) ∧
  (∀ v ∈ r.sample_size_weight, 0 ≤ v ∧ v ≤ 1) ∧
  (∀ v ∈ r.methodology_weight, 0 ≤ v ∧ v ≤ 1) ∧
  (∀ v ∈ r.peer_review_weight, 0 ≤ v ∧ v ≤ 1) ∧
  (∀ v ∈ r.citation_velocity_weight, 0 ≤ v ∧ v ≤ 1)

def weightsTotal (s : AppSettingsW) : ℚ :=
  s.journal_impact_weight + s.author_hindex_weight + s.sample_size_weight +
  s.methodology_weight + s.peer_review_weight + s.citation_velocity_weight

/-- The `setattr` loop over `model_dump(exclude_unset=True)`. -/
def applyWeightsUpdate (s : AppSettingsW) (r : WeightsUpdateRequest) : AppSettingsW :=
  { journal_impact_weight := r.journal_impact_weight.getD s.journal_impact_weight,
    author_hindex_weight := r.author_hindex_weight.getD s.author_hindex_weight,
    sample_size_weight := r.sample_size_weight.getD s.sample_size_weight,
    methodology_weight := r.methodology_weight.getD s.methodology_weight,
    peer_review_weight := r.peer_review_weight.getD s.peer_review_weight,
    citation_velocity_weight := r.citation_velocity_weight.getD s.citation_velocity_weight }

/-- update_credibility_weights: the stored settings row (lazily created with
defaults when absent), updated field-wise, then normalized when the total is
positive.  Returns the persisted row. -/
def update_credibility_weights (s0 : Option AppSettingsW) (r : WeightsUpdateRequest) :
    AppSettingsW :=
  let s := applyWeightsUpdate (s0.getD {}) r
  let total := weightsTotal s
  if 0 < total then
    { journal_impact_weight := s.journal_impact_weight / total,
      author_hindex_weight := s.author_hindex_weight / total,
      sample_size_weight := s.sample_size_weight / total,
      methodology_weight := s.methodology_weight / total,
      peer_review_weight := s.peer_review_weight / total,
      citation_velocity_weight := s.citation_velocity_weight / total }
  else s

/-! ## Field-preservation lemmas: which Paper fields each operation can
write.  `scoreSampleSize` writes only `sample_size`; `scoreMethodology`
writes only `study_type` and `methodology_quality`; `analyze` composes the
two; the enrichment steps write only their own field group. -/

/-- Fields `scoreSampleSize` never writes. -/
theorem scoreSampleSize_fst_fields (o : ScoreOracle) (p : Paper) :
    ((scoreSampleSize o p).1).abstract = p.abstract ∧
    ((scoreSampleSize o p).1).citations = p.citations ∧
    ((scoreSampleSize o p).1).published_days_ago = p.published_days_ago ∧
    ((scoreSampleSize o p).1).is_preprint = p.is_preprint ∧
    ((scoreSampleSize o p).1).is_peer_reviewed = p.is_peer_reviewed ∧
    ((scoreSampleSize o p).1).methodology_quality = p.methodology_quality ∧
    ((scoreSampleSize o p).1).credibility_score = p.credibility_score ∧
    ((scoreSampleSize o p).1).credibility_breakdown = p.credibility_breakdown ∧
    ((scoreSampleSize o p).1).credibility_note = p.credibility_note ∧
    ((scoreSampleSize o p).1).summary_headline = p.summary_headline ∧
    ((scoreSampleSize o p).1).summary_takeaway = p.summary_takeaway ∧
    ((scoreSampleSize o p).1).summary_why_matters = p.summary_why_matters ∧
    ((scoreSampleSize o p).1).key_takeaways = p.key_takeaways ∧
    ((scoreSampleSize o p).1).tags = p.tags ∧
    ((scoreSampleSize o p).1).image_path = p.image_path ∧
    ((scoreSampleSize o p).1).image_prompt = p.image_prompt := by
  simp only [scoreSampleSize]
  split_ifs <;> simp

/-- Fields `scoreMethodology` never writes. -/
theorem scoreMethodology_fst_fields (o : ScoreOracle) (p : Paper) :
    ((scoreMethodology o p).1).abstract = p.abstract ∧
    ((scoreMethodology o p).1).citations = p.citations ∧
    ((scoreMethodology o p).1).published_days_ago = p.published_days_ago ∧
    ((scoreMethodology o p).1).is_preprint = p.is_preprint ∧
    ((scoreMethodology o p).1).is_peer_reviewed = p.is_peer_reviewed ∧
    ((scoreMethodology o p).1).sample_size = p.sample_size ∧
    ((scoreMethodology o p).1).credibility_score = p.credibility_score ∧
    ((scoreMethodology o p).1).credibility_breakdown = p.credibility_breakdown ∧
    ((scoreMethodology o p).1).credibility_note = p.credibility_note ∧
    ((scoreMethodology o p).1).summary_headline = p.summary_headline ∧
    ((scoreMethodology o p).1).summary_takeaway = p.summary_takeaway ∧
    ((scoreMethodology o p).1).summary_why_matters = p.summary_why_matters ∧
    ((scoreMethodology o p).1).key_takeaways = p.key_takeaways ∧
    ((scoreMethodology o p).1).tags = p.tags ∧
    ((scoreMethodology o p).1).image_path = p.image_path ∧
    ((scoreMethodology o p).1).image_prompt = p.image_prompt := by
  simp only [scoreMethodology]
  split_ifs <;> simp

/-- Fields `analyze`'s returned paper never differs on: everything except
`sample_size`, `study_type` and `methodology_quality`. -/
theorem analyze_fst_fields (w : Weights) (o : ScoreOracle) (p : Paper) :
    ((analyze w o p).1).credibility_score = p.credibility_score ∧
    ((analyze w o p).1).credibility_breakdown = p.credibility_breakdown ∧
    ((analyze w o p).1).credibility_note = p.credibility_note ∧
    ((analyze w o p).1).summary_headline = p.summary_headline ∧
    ((analyze w o p).1).summary_takeaway = p.summary_takeaway ∧
    ((analyze w o p).1).summary_why_matters = p.summary_why_matters ∧
    ((analyze w o p).1).key_takeaways = p.key_takeaways ∧
    ((analyze w o p).1).tags = p.tags ∧
    ((analyze w o p).1).image_path = p.image_path ∧
    ((analyze w o p).1).image_prompt = p.image_prompt := by
  have h1 := scoreSampleSize_fst_fields o p
  have h2 := scoreMethodology_fst_fields o (scoreSampleSize o p).1
  simp only [analyze]
  exact ⟨h2.2.2.2.2.2.2.1.trans h1.2.2.2.2.2.2.1,
         h2.2.2.2.2.2.2.2.1.trans h1.2.2.2.2.2.2.2.1,
         h2.2.2.2.2.2.2.2.2.1.trans h1.2.2.2.2.2.2.2.2.1,
         h2.2.2.2.2.2.2.2.2.2.1.trans h1.2.2.2.2.2.2.2.2.2.1,
         h2.2.2.2.2.2.2.2.2.2.2.1.trans h1.2.2.2.2.2.2.2.2.2.2.1,
         h2.2.2.2.2.2.2.2.2.2.2.2.1.trans h1.2.2.2.2.2.2.2.2.2.2.2.1,
         h2.2.2.2.2.2.2.2.2.2.2.2.2.1.trans h1.2.2.2.2.2.2.2.2.2.2.2.2.1,
         h2.2.2.2.2.2.2.2.2.2.2.2.2.2.1.trans h1.2.2.2.2.2.2.2.2.2.2.2.2.2.1,
         h2.2.2.2.2.2.2.2.2.2.2.2.2.2.2.1.trans h1.2.2.2.2.2.2.2.2.2.2.2.2.2.2.1,
         h2.2.2.2.2.2.2.2.2.2.2.2.2.2.2.2.trans h1.2.2.2.2.2.2.2.2.2.2.2.2.2.2.2⟩

/-- After step 1 the credibility score is always populated. -/
theorem enrichStep1_score_ne (w : Weights) (o : PaperOracle) (p : Paper) :
    (enrichStep1 w o p).credibility_score ≠ none := by
  simp only [enrichStep1]
  split_ifs with h
  · simp
  · simp [h]

/-- Step 1 never writes the summary or illustration fields. -/
theorem enrichStep1_fields (w : Weights) (o : PaperOracle) (p : Paper) :
    (enrichStep1 w o p).summary_headline = p.summary_headline ∧
    (enrichStep1 w o p).summary_takeaway = p.summary_takeaway ∧
    (enrichStep1 w o p).summary_why_matters = p.summary_why_matters ∧
    (enrichStep1 w o p).key_takeaways = p.key_takeaways ∧
    (enrichStep1 w o p).tags = p.tags ∧
    (enrichStep1 w o p).image_path = p.image_path ∧
    (enrichStep1 w o p).image_prompt = p.image_prompt := by
  have ha := analyze_fst_fields w o.score p
  simp only [enrichStep1]
  split_ifs
  · exact ⟨ha.2.2.2.1, ha.2.2.2.2.1, ha.2.2.2.2.2.1, ha.2.2.2.2.2.2.1,
           ha.2.2.2.2.2.2.2.1, ha.2.2.2.2.2.2.2.2.1, ha.2.2.2.2.2.2.2.2.2⟩
  · exact ⟨rfl, rfl, rfl, rfl, rfl, rfl, rfl⟩

/-- Step 1 is skipped when a credibility score is already present. -/
theorem enrichStep1_skip (w : Weights) (o : PaperOracle) (p : Paper)
    (h : p.credibility_score ≠ none) : enrichStep1 w o p = p := by
  simp only [enrichStep1]
  rw [if_neg h]

/-- Step 2 is skipped when a headline is already present. -/
theorem enrichStep2_skip (o : PaperOracle) (p : Paper)
    (h : p.summary_headline ≠ none) : enrichStep2 o p = (p, none) := by
  simp only [enrichStep2]
  rw [if_neg h]

/-- After a successful step 2 the headline is populated. -/
theorem enrichStep2_headline_ne (o : PaperOracle) (p : Paper)
    (h : (enrichStep2 o p).2 = none) :
    ((enrichStep2 o p).1).summary_headline ≠ none := by
  simp only [enrichStep2] at *
  split_ifs at * with hg
  · cases hr : o.summaryResp with
    | error e => rw [hr] at h; simp at h
    | ok resp => simp
  · simp [hg]

/-- Step 2 never writes the credibility or illustration fields, in both the
success and the exception outcome. -/
theorem enrichStep2_fields (o : PaperOracle) (p : Paper) :
    ((enrichStep2 o p).1).credibility_score = p.credibility_score ∧
    ((enrichStep2 o p).1).credibility_breakdown = p.credibility_breakdown ∧
    ((enrichStep2 o p).1).credibility_note = p.credibility_note ∧
    ((enrichStep2 o p).1).image_path = p.image_path ∧
    ((enrichStep2 o p).1).image_prompt = p.image_prompt := by
  simp only [enrichStep2]
  split_ifs
  · cases o.summaryResp <;> simp
  · simp

/-- Step 3 is skipped when an illustration reference is already present. -/
theorem enrichStep3_skip (o : PaperOracle) (p : Paper)
    (h : p.image_path ≠ none) : enrichStep3 o p = (p, none) := by
  simp only [enrichStep3]
  rw [if_neg h]

/-- After a successful step 3 the illustration reference is populated. -/
theorem enrichStep3_image_ne (o : PaperOracle) (p : Paper)
    (h : (enrichStep3 o p).2 = none) :
    ((enrichStep3 o p).1).image_path ≠ none := by
  simp only [enrichStep3] at *
  split_ifs at * with hg
  · cases hr : imageGenerate o.image p with
    | error e => rw [hr] at h; simp at h
    | ok pr => simp
  · simp [hg]

/-- Step 3 never writes the credibility or summary fields. -/
theorem enrichStep3_fields (o : PaperOracle) (p : Paper) :
    ((enrichStep3 o p).1).credibility_score = p.credibility_score ∧
    ((enrichStep3 o p).1).credibility_breakdown = p.credibility_breakdown ∧
    ((enrichStep3 o p).1).credibility_note = p.credibility_note ∧
    ((enrichStep3 o p).1).summary_headline = p.summary_headline ∧
    ((enrichStep3 o p).1).summary_takeaway = p.summary_takeaway ∧
    ((enrichStep3 o p).1).summary_why_matters = p.summary_why_matters ∧
    ((enrichStep3 o p).1).key_takeaways = p.key_takeaways ∧
    ((enrichStep3 o p).1).tags = p.tags := by
  simp only [enrichStep3]
  split_ifs
  · cases h : imageGenerate o.image p with
    | error e => simp
    | ok pr =>
      simp only [imageGenerate] at h
      cases hp : o.image.promptResp with
      | error e => rw [hp] at h; cases h
      | ok resp =>
        rw [hp] at h
        cases hg : o.image.genResp with
        | error e => rw [hg] at h; cases h; simp
        | ok path => rw [hg] at h; cases h; simp
  · simp

/-- Step 3 keeps an already-present illustration reference and prompt. -/
theorem enrichStep3_keep (o : PaperOracle) (p : Paper)
    (h : p.image_path ≠ none) :
    ((enrichStep3 o p).1).image_path = p.image_path ∧
    ((enrichStep3 o p).1).image_prompt = p.image_prompt := by
  rw [enrichStep3_skip o p h]
  exact ⟨rfl, rfl⟩

/-- After a successful enrichment all three gate fields are populated. -/
theorem enrich_ok_gates (w : Weights) (o : PaperOracle) (p : Paper)
    (h : (enrich w o p).2 = none) :
    ((enrich w o p).1).credibility_score ≠ none ∧
    ((enrich w o p).1).summary_headline ≠ none ∧
    ((enrich w o p).1).image_path ≠ none := by
  simp only [enrich] at *
  cases hr2 : (enrichStep2 o (enrichStep1 w o p)).2 with
  | some e => rw [hr2] at h; simp at h
  | none =>
    rw [hr2] at h
    have h3f := enrichStep3_fields o (enrichStep2 o (enrichStep1 w o p)).1
    have h' : (enrichStep3 o (enrichStep2 o (enrichStep1 w o p)).1).2 = none := h
    refine ⟨?_, ?_, enrichStep3_image_ne o _ h'⟩
    · show ((enrichStep3 o (enrichStep2 o (enrichStep1 w o p)).1).1).credibility_score ≠ none
      rw [h3f.1, (enrichStep2_fields o (enrichStep1 w o p)).1]
      exact enrichStep1_score_ne w o p
    · show ((enrichStep3 o (enrichStep2 o (enrichStep1 w o p)).1).1).summary_headline ≠ none
      rw [h3f.2.2.2.1]
      exact enrichStep2_headline_ne o _ hr2

/-- When all three gate fields are populated, enrichment is the identity and
raises nothing: every step is skipped. -/
theorem enrich_all_skip (w : Weights) (o : PaperOracle) (p : Paper)
    (h1 : p.credibility_score ≠ none) (h2 : p.summary_headline ≠ none)
    (h3 : p.image_path ≠ none) :
    enrich w o p = (p, none) := by
  simp only [enrich, enrichStep1_skip w o p h1, enrichStep2_skip o p h2,
    enrichStep3_skip o p h3]

/-- Populated enrichment-field groups are never re-derived nor overwritten
by a later `enrich` call: the score group, the summary group and the
illustration group are each kept verbatim once their gate field is set. -/
theorem enrich_preserves (w : Weights) (o : PaperOracle) (p : Paper) :
    (p.credibility_score ≠ none →
      ((enrich w o p).1).credibility_score = p.credibility_score ∧
      ((enrich w o p).1).credibility_breakdown = p.credibility_breakdown ∧
      ((enrich w o p).1).credibility_note = p.credibility_note) ∧
    (p.summary_headline ≠ none →
      ((enrich w o p).1).summary_headline = p.summary_headline ∧
      ((enrich w o p).1).summary_takeaway = p.summary_takeaway ∧
      ((enrich w o p).1).summary_why_matters = p.summary_why_matters ∧
      ((enrich w o p).1).key_takeaways = p.key_takeaways ∧
      ((enrich w o p).1).tags = p.tags) ∧
    (p.image_path ≠ none →
      ((enrich w o p).1).image_path = p.image_path ∧
      ((enrich w o p).1).image_prompt = p.image_prompt) := by
  simp only [enrich]
  refine ⟨fun h1 => ?_, fun h2 => ?_, fun h3 => ?_⟩
  · rw [enrichStep1_skip w o p h1]
    have h2f := enrichStep2_fields o p
    cases hr2 : (enrichStep2 o p).2 with
    | some e =>
      exact ⟨h2f.1, h2f.2.1, h2f.2.2.1⟩
    | none =>
      have h3f := enrichStep3_fields o (enrichStep2 o p).1
      exact ⟨h3f.1.trans h2f.1, h3f.2.1.trans h2f.2.1, h3f.2.2.1.trans h2f.2.2.1⟩
  · have h1f := enrichStep1_fields w o p
    have hhead : (enrichStep1 w o p).summary_headline ≠ none := by
      rw [h1f.1]; exact h2
    rw [enrichStep2_skip o _ hhead]
    simp only
    have h3f := enrichStep3_fields o (enrichStep1 w o p)
    exact ⟨h3f.2.2.2.1.trans h1f.1, h3f.2.2.2.2.1.trans h1f.2.1,
           h3f.2.2.2.2.2.1.trans h1f.2.2.1, h3f.2.2.2.2.2.2.1.trans h1f.2.2.2.1,
           h3f.2.2.2.2.2.2.2.trans h1f.2.2.2.2.1⟩
  · have h1f := enrichStep1_fields w o p
    have h2f := enrichStep2_fields o (enrichStep1 w o p)
    have himg : ((enrichStep2 o (enrichStep1 w o p)).1).image_path ≠ none := by
      rw [h2f.2.2.2.1, h1f.2.2.2.2.2.1]; exact h3
    cases hr2 : (enrichStep2 o (enrichStep1 w o p)).2 with
    | some e =>
      exact ⟨h2f.2.2.2.1.trans h1f.2.2.2.2.2.1, h2f.2.2.2.2.trans h1f.2.2.2.2.2.2⟩
    | none =>
      have hk := enrichStep3_keep o _ himg
      exact ⟨(hk.1.trans h2f.2.2.2.1).trans h1f.2.2.2.2.2.1,
             (hk.2.trans h2f.2.2.2.2).trans h1f.2.2.2.2.2.2⟩

/-- When the item loop raises nothing, every paper it returns has all three
gate fields populated. -/
theorem processPapers_ok_gates (w : Weights) (os : ℕ → PaperOracle) :
    ∀ (ps : List Paper) (i : ℕ), (processPapers w os i ps).2 = none →
    ∀ p ∈ (processPapers w os i ps).1,
      p.credibility_score ≠ none ∧ p.summary_headline ≠ none ∧ p.image_path ≠ none := by
  intro ps
  induction ps with
  | nil => intro i h p hp; simp [processPapers] at hp
  | cons q rest ih =>
    intro i h p hp
    simp only [processPapers] at h hp
    cases hr : (enrich w (os i) q).2 with
    | some e => rw [hr] at h; simp at h
    | none =>
      rw [hr] at h hp
      cases List.mem_cons.mp hp with
      | inl hpe =>
        subst hpe
        exact enrich_ok_gates w (os i) q hr
      | inr hpm => exact ih (i + 1) h p hpm

/-- The digest run's outcome is determined by its first unhandled
exception: FAILED with that exception's message, or COMPLETED with the
completion timestamp set. -/
theorem process_digest_outcome (w : Weights) (o : DigestOracle) (st : PipelineState) :
    ((∃ e, pipelineError w o st = some e) →
      (process_digest w o st).digest.status = DigestStatus.failed ∧
      (process_digest w o st).digest.error_message = pipelineError w o st) ∧
    (pipelineError w o st = none →
      (process_digest w o st).digest.status = DigestStatus.completed ∧
      (process_digest w o st).digest.processed_at = true) := by
  unfold process_digest pipelineError
  cases o.ctorInit <;> cases hp : (processPapers w o.perPaper 0 st.papers).2 <;>
    cases o.introResp <;> cases o.narrativeResp <;> cases o.conclusionResp <;>
    cases o.summaryImage.promptResp <;> cases o.summaryImage.genResp <;> simp

/-- Whenever the service construction succeeded, the persisted papers after
the run are exactly the item loop's output (also when a later digest-level
step failed: the final commit keeps all committed item enrichment). -/
theorem process_digest_papers (w : Weights) (o : DigestOracle) (st : PipelineState)
    (h : o.ctorInit = Except.ok ()) :
    (process_digest w o st).papers = (processPapers w o.perPaper 0 st.papers).1 := by
  unfold process_digest
  rw [h]
  cases hp : (processPapers w o.perPaper 0 st.papers).2 <;>
    cases o.introResp <;> cases o.narrativeResp <;> cases o.conclusionResp <;>
    cases o.summaryImage.promptResp <;> cases o.summaryImage.genResp <;> rfl

/-! ## Monotonicity of the four sub-score curves. -/

theorem journalImpactCurve_mono (v1 v2 : ℚ) (h : v1 ≤ v2) :
    journalImpactCurve v1 ≤ journalImpactCurve v2 := by
  unfold journalImpactCurve
  split_ifs <;>
    first
    | linarith
    | (exfalso; linarith)
    | (refine le_min (by linarith) (by linarith))
    | (exact min_le_min le_rfl (by linarith))

theorem authorHindexCurve_mono (v1 v2 : ℚ) (h : v1 ≤ v2) :
    authorHindexCurve v1 ≤ authorHindexCurve v2 := by
  unfold authorHindexCurve
  split_ifs <;>
    first
    | linarith
    | (exfalso; linarith)
    | (refine le_min (by linarith) (by linarith))
    | (exact min_le_min le_rfl (by linarith))

theorem sampleSizeCurve_mono (v1 v2 : ℚ) (h : v1 ≤ v2) :
    sampleSizeCurve v1 ≤ sampleSizeCurve v2 := by
  have hm : min v1 10000 ≤ min v2 10000 := min_le_min h le_rfl
  unfold sampleSizeCurve
  split_ifs <;>
    first
    | linarith
    | (exfalso; linarith)
    | (refine le_min (by linarith) ?_
       have h10k : (1000 : ℚ) ≤ min v2 10000 := le_min (by linarith) (by norm_num)
       linarith)
    | (exact min_le_min le_rfl (by linarith))

theorem citationVelocityCurve_mono (v1 v2 : ℚ) (h : v1 ≤ v2) :
    citationVelocityCurve v1 ≤ citationVelocityCurve v2 := by
  have hm : min v1 100 ≤ min v2 100 := min_le_min h le_rfl
  unfold citationVelocityCurve
  split_ifs <;>
    first
    | linarith
    | (exfalso; linarith)
    | (refine le_min (by linarith) ?_
       have h100 : (20 : ℚ) ≤ min v2 100 := le_min (by linarith) (by norm_num)
       linarith)
    | (exact min_le_min le_rfl (by linarith))

/-! ## Concrete inputs used by witnesses and counterexamples. -/

/-- Oracle for a paper whose extraction calls return nothing useful. -/
def okScoreOracle : ScoreOracle := { sampleSizeResp := .ok "", methodologyResp := .ok "" }

/-- A per-paper oracle for a run where every external call succeeds. -/
def okPaperOracle : PaperOracle :=
  { score := okScoreOracle
    note := { providerCtor := .ok (), completeResp := .ok "An AI note." }
    summaryResp := .ok ""
    image := { promptResp := .ok "a prompt", genResp := .ok "img.png" } }

/-- A per-paper oracle whose narrative (summary) call raises. -/
def failSummaryOracle : PaperOracle :=
  { okPaperOracle with summaryResp := .error "narrative down" }

def freshDigest : Digest :=
  { name := "w", status := DigestStatus.pending, error_message := none,
    ai_provider := "gemini", ai_model := "m", summary_style := "newsletter",
    intro_text := none, connecting_narrative := none, conclusion_text := none,
    summary_image_path := none, processed_at := false }

/-- Digest oracle for the spec's 3-item scenario: item 2's narrative call
throws, everything else succeeds. -/
def c2Oracle : DigestOracle :=
  { ctorInit := .ok ()
    perPaper := fun i => if i = 1 then failSummaryOracle else okPaperOracle
    introResp := .ok "intro"
    narrativeResp := .ok "narrative"
    conclusionResp := .ok "conclusion"
    summaryImage := { promptResp := .ok "p", genResp := .ok "s.png" } }

/-- Digest oracle for a re-run where every external call succeeds. -/
def okDigestOracle : DigestOracle :=
  { ctorInit := .ok ()
    perPaper := fun _ => okPaperOracle
    introResp := .ok "intro"
    narrativeResp := .ok "narrative"
    conclusionResp := .ok "conclusion"
    summaryImage := { promptResp := .ok "p", genResp := .ok "s.png" } }

/-- A 3-item digest about to be processed, no item enriched yet. -/
def c2State : PipelineState :=
  { digest := freshDigest, papers := [blankPaper, blankPaper, blankPaper] }

/-! ## Claims. -/

/-- Claim C1: enrichment is idempotent.  For every item whose enrichment
fields were all populated by a first (exception-free) run of the per-item
enrichment step, a second run — under any weights and any oracle — performs
no writes: the persisted paper after the second call is identical to the
paper after the first, and no non-empty enrichment field is overwritten. -/
theorem c1_enrich_idempotent (w w' : Weights) (o o' : PaperOracle) (p : Paper)
    (h : (enrich w o p).2 = none) :
    enrich w' o' ((enrich w o p).1) = ((enrich w o p).1, none) := by
  obtain ⟨h1, h2, h3⟩ := enrich_ok_gates w o p h
  exact enrich_all_skip w' o' _ h1 h2 h3

/-- Witness for C1 at a concrete input: a first successful enrichment of a
blank paper, after which a second enrichment is the identity. -/
theorem c1_enrich_idempotent_witness :
    (enrich defaultWeights okPaperOracle blankPaper).2 = none ∧
    enrich defaultWeights okPaperOracle ((enrich defaultWeights okPaperOracle blankPaper).1)
      = ((enrich defaultWeights okPaperOracle blankPaper).1, none) := by
  have h : (enrich defaultWeights okPaperOracle blankPaper).2 = none := by decide
  exact ⟨h, c1_enrich_idempotent defaultWeights defaultWeights
    okPaperOracle okPaperOracle blankPaper h⟩

/-- Claim C2: partial-failure semantics and resumption.  (1) Any unhandled
exception ends the digest FAILED with that exception's message persisted;
(2) all item enrichment committed before (and partially during) the failure
is kept in the persisted papers; (3) a populated field group is never
re-derived by a later enrichment call; (4) a re-run whose external calls
raise nothing completes the digest and leaves every paper fully enriched. -/
theorem c2_failure_and_resumption :
    (∀ (w : Weights) (o : DigestOracle) (st : PipelineState) (e : String),
      pipelineError w o st = some e →
      (process_digest w o st).digest.status = DigestStatus.failed ∧
      (process_digest w o st).digest.error_message = some e) ∧
    (∀ (w : Weights) (o : DigestOracle) (st : PipelineState),
      o.ctorInit = Except.ok () →
      (process_digest w o st).papers = (processPapers w o.perPaper 0 st.papers).1) ∧
    (∀ (w : Weights) (o : PaperOracle) (p : Paper),
      (p.credibility_score ≠ none →
        ((enrich w o p).1).credibility_score = p.credibility_score ∧
        ((enrich w o p).1).credibility_breakdown = p.credibility_breakdown ∧
        ((enrich w o p).1).credibility_note = p.credibility_note) ∧
      (p.summary_headline ≠ none →
        ((enrich w o p).1).summary_headline = p.summary_headline ∧
        ((enrich w o p).1).summary_takeaway = p.summary_takeaway ∧
        ((enrich w o p).1).summary_why_matters = p.summary_why_matters ∧
        ((enrich w o p).1).key_takeaways = p.key_takeaways ∧
        ((enrich w o p).1).tags = p.tags) ∧
      (p.image_path ≠ none →
        ((enrich w o p).1).image_path = p.image_path ∧
        ((enrich w o p).1).image_prompt = p.image_prompt)) ∧
    (∀ (w : Weights) (o : DigestOracle) (st : PipelineState),
      pipelineError w o st = none →
      (process_digest w o st).digest.status = DigestStatus.completed ∧
      (process_digest w o st).digest.processed_at = true ∧
      ∀ p ∈ (process_digest w o st).papers,
        p.credibility_score ≠ none ∧ p.summary_headline ≠ none ∧ p.image_path ≠ none) := by
  refine ⟨fun w o st e he => ?_, fun w o st h => process_digest_papers w o st h,
    fun w o p => enrich_preserves w o p, fun w o st h => ?_⟩
  · have hout := (process_digest_outcome w o st).1 ⟨e, he⟩
    exact ⟨hout.1, hout.2.trans he⟩
  · have hctor : o.ctorInit = Except.ok () := by
      cases hc : o.ctorInit with
      | error e =>
        unfold pipelineError at h
        rw [hc] at h
        simp at h
      | ok u => cases u; rfl
    have hout := (process_digest_outcome w o st).2 h
    have hpp : (processPapers w o.perPaper 0 st.papers).2 = none := by
      unfold pipelineError at h
      rw [hctor] at h
      cases hp : (processPapers w o.perPaper 0 st.papers).2 with
      | some e => rw [hp] at h; simp at h
      | none => rfl
    refine ⟨hout.1, hout.2, ?_⟩
    rw [process_digest_papers w o st hctor]
    exact processPapers_ok_gates w o.perPaper st.papers 0 hpp

/-- Witness for C2 at the spec's 3-item scenario: item 2's narrative call
throws; the digest ends FAILED carrying that exception's message, and a
re-run with working providers completes it. -/
theorem c2_failure_and_resumption_witness :
    ((process_digest defaultWeights c2Oracle c2State).digest.status = DigestStatus.failed ∧
     (process_digest defaultWeights c2Oracle c2State).digest.error_message
        = some "narrative down") ∧
    (process_digest defaultWeights okDigestOracle
        (process_digest defaultWeights c2Oracle c2State)).digest.status
      = DigestStatus.completed := by
  have h1 : pipelineError defaultWeights c2Oracle c2State = some "narrative down" := by decide
  have h2 : pipelineError defaultWeights okDigestOracle
      (process_digest defaultWeights c2Oracle c2State) = none := by decide
  exact ⟨c2_failure_and_resumption.1 defaultWeights c2Oracle c2State "narrative down" h1,
         (c2_failure_and_resumption.2.2.2 defaultWeights okDigestOracle
           (process_digest defaultWeights c2Oracle c2State) h2).1⟩

/-- `assessMethodology` reads only the paper's abstract. -/
theorem assessMethodology_abstract (o : ScoreOracle) (p q : Paper)
    (h : p.abstract = q.abstract) :
    assessMethodology o p = assessMethodology o q := by
  unfold assessMethodology hasAbstract
  rw [h]

/-- The six weight values submitted in the all-zero update request. -/
def allZeroRequest : WeightsUpdateRequest :=
  { journal_impact_weight := some 0, author_hindex_weight := some 0,
    sample_size_weight := some 0, methodology_weight := some 0,
    peer_review_weight := some 0, citation_velocity_weight := some 0 }

/-- Counterexample to C3 as stated: submitting six zero weights (all
non-negative, all passing the request validation) to the update operation
leaves the persisted weights summing to 0, not 1: the source normalizes
only when the updated total is strictly positive. -/
theorem c3_counterexample :
    validRequest allZeroRequest ∧
    weightsTotal (update_credibility_weights (some {}) allZeroRequest) = 0 ∧
    weightsTotal (update_credibility_weights (some {}) allZeroRequest) ≠ 1 := by
  refine ⟨?_, ?_, ?_⟩
  · simp [validRequest, allZeroRequest]
  · norm_num [update_credibility_weights, applyWeightsUpdate, weightsTotal, allZeroRequest]
  · norm_num [update_credibility_weights, applyWeightsUpdate, weightsTotal, allZeroRequest]

/-- Claim C3 (amended): for every update request whose submitted values are
valid (each in [0,1]) and whose updated weights have a strictly positive
total, the six persisted weights after the operation sum to exactly 1. -/
theorem c3_weights_normalized (s0 : Option AppSettingsW) (r : WeightsUpdateRequest)
    (hr : validRequest r)
    (h : 0 < weightsTotal (applyWeightsUpdate (s0.getD {}) r)) :
    weightsTotal (update_credibility_weights s0 r) = 1 := by
  have hne : weightsTotal (applyWeightsUpdate (s0.getD {}) r) ≠ 0 := ne_of_gt h
  simp only [update_credibility_weights]
  rw [if_pos h]
  simp only [weightsTotal] at hne ⊢
  field_simp

/-- Witness for C3 (amended) at a concrete input: updating only the journal
weight to 0.5 on the lazily-created default row renormalizes to total 1. -/
theorem c3_weights_normalized_witness :
    weightsTotal (update_credibility_weights none
      { journal_impact_weight := some 0.5 }) = 1 := by
  refine c3_weights_normalized none { journal_impact_weight := some 0.5 } ?_ ?_
  · simp [validRequest]
    norm_num
  · norm_num [weightsTotal, applyWeightsUpdate]

/-- An item with every scoring input missing but carrying the model's
default peer-review flag (`is_peer_reviewed=True`). -/
def c4Paper : Paper := { blankPaper with is_peer_reviewed := true }

/-- Counterexample to C4 as stated: an item with no citations, no published
date, no h-index data, no impact factor, and unknown sample size and
methodology, scores 55.0 (not 50.0) under the default weights when its
peer-review flag is set — the claim omits the peer-review factor, which is
neutral only when both the preprint and peer-reviewed flags are unset. -/
theorem c4_counterexample :
    (c4Paper.citations = none ∧ c4Paper.published_days_ago = none ∧
     (∀ a ∈ c4Paper.authors, a.h_index = none) ∧
     c4Paper.journal_impact_factor = none ∧
     c4Paper.sample_size = none ∧ c4Paper.methodology_quality = none) ∧
    defaultWeights.journal_impact + defaultWeights.author_hindex +
      defaultWeights.sample_size + defaultWeights.methodology +
      defaultWeights.peer_review + defaultWeights.citation_velocity = 1 ∧
    (analyze defaultWeights okScoreOracle c4Paper).2.1 = 55 ∧
    (analyze defaultWeights okScoreOracle c4Paper).2.1 ≠ 50 := by
  refine ⟨⟨rfl, rfl, by simp [c4Paper, blankPaper], rfl, rfl, rfl⟩,
    by norm_num [defaultWeights], ?_, ?_⟩ <;>
  · simp [analyze, scoreJournalImpact, scoreAuthorHindex, scoreSampleSize,
      extractSampleSize, hasAbstract, scoreMethodology, assessMethodology,
      methodologyQualityScore, scorePeerReview, scoreCitationVelocity,
      c4Paper, blankPaper, defaultWeights, okScoreOracle]
    norm_num [round1, roundHalfEven, qfloor]

/-- Claim C4 (amended): for every item with no citation count, no published
date, no author h-index data, no impact factor, sample size and methodology
remaining unknown, *and neither the preprint nor the peer-reviewed flag
set*, the scoring engine's total is exactly 50.0 whenever the six
configured weights sum to 1. -/
theorem c4_missing_data_neutral (w : Weights) (o : ScoreOracle) (p : Paper)
    (hjif : p.journal_impact_factor = none)
    (hauth : ∀ a ∈ p.authors, a.h_index = none)
    (hss : p.sample_size = none) (hext : extractSampleSize o p = none)
    (hmq : p.methodology_quality = none)
    (hassess : (assessMethodology o p).2 = "unknown")
    (hpre : p.is_preprint = false) (hrev : p.is_peer_reviewed = false)
    (hcit : p.citations = none) (hpub : p.published_days_ago = none)
    (hw : w.journal_impact + w.author_hindex + w.sample_size + w.methodology +
          w.peer_review + w.citation_velocity = 1) :
    (analyze w o p).2.1 = 50 := by
  have hsf := scoreSampleSize_fst_fields o p
  have hmf := scoreMethodology_fst_fields o (scoreSampleSize o p).1
  have hJ : scoreJournalImpact p = 50 := by simp [scoreJournalImpact, hjif]
  have hA : scoreAuthorHindex p = 50 := by
    have hfm : p.authors.filterMap Author.h_index = [] := by
      rw [List.filterMap_eq_nil_iff]
      exact hauth
    unfold scoreAuthorHindex
    cases hl : p.authors with
    | nil => rfl
    | cons a t =>
      rw [hl] at hfm
      simp [hfm]
  have hS2 : (scoreSampleSize o p).2 = 50 := by
    simp [scoreSampleSize, hss, hext]
  have hS1mq : ((scoreSampleSize o p).1).methodology_quality = none := by
    rw [hsf.2.2.2.2.2.1]; exact hmq
  have hassess1 : (assessMethodology o (scoreSampleSize o p).1).2 = "unknown" := by
    rw [assessMethodology_abstract o _ p hsf.1]; exact hassess
  have hM2 : (scoreMethodology o (scoreSampleSize o p).1).2 = 50 := by
    simp only [scoreMethodology, hS1mq, if_pos]
    simp [hassess1, methodologyQualityScore]
  have hp2pre : ((scoreMethodology o (scoreSampleSize o p).1).1).is_preprint = false := by
    rw [hmf.2.2.2.1, hsf.2.2.2.1]; exact hpre
  have hp2rev : ((scoreMethodology o (scoreSampleSize o p).1).1).is_peer_reviewed = false := by
    rw [hmf.2.2.2.2.1, hsf.2.2.2.2.1]; exact hrev
  have hp2cit : ((scoreMethodology o (scoreSampleSize o p).1).1).citations = none := by
    rw [hmf.2.1, hsf.2.1]; exact hcit
  have hR : scorePeerReview (scoreMethodology o (scoreSampleSize o p).1).1 = 50 := by
    simp [scorePeerReview, hp2pre, hp2rev]
  have hC : scoreCitationVelocity (scoreMethodology o (scoreSampleSize o p).1).1 = 50 := by
    unfold scoreCitationVelocity
    rw [hp2cit]
  simp only [analyze]
  rw [hJ, hA, hS2, hM2, hR, hC]
  have ht : (50 : ℚ) * w.journal_impact + 50 * w.author_hindex + 50 * w.sample_size +
      50 * w.methodology + 50 * w.peer_review + 50 * w.citation_velocity = 50 := by
    linarith
  rw [ht]
  norm_num [round1, roundHalfEven, qfloor]

/-- Witness for C4 (amended) at a concrete input: a fully-blank paper under
the default weights scores exactly 50. -/
theorem c4_missing_data_neutral_witness :
    (analyze defaultWeights okScoreOracle blankPaper).2.1 = 50 := by
  refine c4_missing_data_neutral defaultWeights okScoreOracle blankPaper rfl ?_ rfl rfl rfl rfl
    rfl rfl rfl rfl ?_
  · simp [blankPaper]
  · norm_num [defaultWeights]

/-- Claim C5: each of the four piecewise-linear sub-score curves (citation
velocity, journal impact, author h-index, sample size) is monotone
non-decreasing on its non-negative domain. -/
theorem c5_curve_monotonicity (v1 v2 : ℚ) (h0 : 0 ≤ v1) (h : v1 < v2) :
    citationVelocityCurve v1 ≤ citationVelocityCurve v2 ∧
    journalImpactCurve v1 ≤ journalImpactCurve v2 ∧
    authorHindexCurve v1 ≤ authorHindexCurve v2 ∧
    sampleSizeCurve v1 ≤ sampleSizeCurve v2 :=
  ⟨citationVelocityCurve_mono v1 v2 h.le, journalImpactCurve_mono v1 v2 h.le,
   authorHindexCurve_mono v1 v2 h.le, sampleSizeCurve_mono v1 v2 h.le⟩

/-- Witness for C5 at a concrete input pair. -/
theorem c5_curve_monotonicity_witness :
    citationVelocityCurve 1 ≤ citationVelocityCurve 2 ∧
    journalImpactCurve 1 ≤ journalImpactCurve 2 ∧
    authorHindexCurve 1 ≤ authorHindexCurve 2 ∧
    sampleSizeCurve 1 ≤ sampleSizeCurve 2 :=
  c5_curve_monotonicity 1 2 (by norm_num) (by norm_num)

/-- A paper whose scoring and summarization are already persisted, with the
illustration step still pending. -/
def c6Paper : Paper :=
  { blankPaper with credibility_score := some 50, summary_headline := some "h" }

/-- Oracle whose illustration generation call raises. -/
def c6FailGenOracle : PaperOracle :=
  { okPaperOracle with image := { promptResp := .ok "p", genResp := .error "image api down" } }

/-- Counterexample to C6 as stated: when the illustration request raises
(or returns the empty result), the step does not leave the illustration
reference unset — it persists the empty string, so the field is set; the
step still reports no failure. -/
theorem c6_counterexample :
    (enrichStep3 c6FailGenOracle c6Paper).2 = none ∧
    ((enrichStep3 c6FailGenOracle c6Paper).1).image_path = some "" ∧
    ¬ ((enrichStep3 c6FailGenOracle c6Paper).1).image_path = none := by
  refine ⟨by decide, by decide, by decide⟩

/-- Claim C6 (amended): for every item whose illustration step runs and
whose illustration request legitimately yields nothing (the provider's
empty "no image produced" result, or a raised generation error), no
exception propagates, the outcome is not a failure, and the illustration
reference is persisted as the empty string (not left unset). -/
theorem c6_illustration_fallback (o : PaperOracle) (p : Paper) (r : String)
    (hg : p.image_path = none) (hp : o.image.promptResp = .ok r)
    (hres : (∃ e, o.image.genResp = .error e) ∨ o.image.genResp = .ok "") :
    (enrichStep3 o p).2 = none ∧ ((enrichStep3 o p).1).image_path = some "" := by
  simp only [enrichStep3, imageGenerate]
  rw [if_pos hg, hp]
  rcases hres with ⟨e, he⟩ | he <;> rw [he] <;> exact ⟨rfl, rfl⟩

/-- Witness for C6 (amended) at a concrete input. -/
theorem c6_illustration_fallback_witness :
    (enrichStep3 c6FailGenOracle c6Paper).2 = none ∧
    ((enrichStep3 c6FailGenOracle c6Paper).1).image_path = some "" :=
  c6_illustration_fallback c6FailGenOracle c6Paper "p" rfl rfl
    (Or.inl ⟨"image api down", rfl⟩)

/-- A paper with an abstract whose extraction calls are about to fail. -/
def c7Paper : Paper := { blankPaper with abstract := some "An abstract." }

/-- Oracle whose extraction calls both raise. -/
def failExtractionOracle : ScoreOracle :=
  { sampleSizeResp := .error "provider down", methodologyResp := .error "provider down" }

/-- Counterexample to C7 as stated: after a failed methodology
classification the methodology field is not left unset — it is set to the
sentinel category "unknown" — whereas a failed sample-size extraction does
leave the sample-size field unset, so the two failures are not cached
identically. -/
theorem c7_counterexample :
    ((scoreMethodology failExtractionOracle c7Paper).1).methodology_quality = some "unknown" ∧
    ¬ ((scoreMethodology failExtractionOracle c7Paper).1).methodology_quality = none ∧
    ((scoreSampleSize failExtractionOracle c7Paper).1).sample_size = none := by
  refine ⟨by decide, by decide, by decide⟩

/-- A cached methodology category is reused without consulting the
provider: with the field set, `scoreMethodology` only performs the lookup. -/
theorem scoreMethodology_cached (o : ScoreOracle) (q : Paper) (m : String)
    (h : q.methodology_quality = some m) :
    scoreMethodology o q = (q, methodologyQualityScore (some m)) := by
  unfold scoreMethodology
  simp [h]

/-- Claim C7 (amended): a methodology classification that fails or returns
a category outside the closed list caches the sentinel "unknown" on the
item (the factor scores a neutral 50 on this call, and on all future calls
the cached sentinel is reused without consulting the provider), while a
failed sample-size extraction leaves the sample-size field unset and a
future scoring call re-runs the extraction. -/
theorem c7_methodology_caching :
    (∀ (o : ScoreOracle) (p : Paper),
      p.methodology_quality = none →
      ((∃ e, o.methodologyResp = .error e) ∨
       (∃ r, o.methodologyResp = .ok r ∧ normalizeMethodology r ∉ validMethodologies)) →
      ((scoreMethodology o p).1).methodology_quality = some "unknown" ∧
      (scoreMethodology o p).2 = 50 ∧
      (∀ o' : ScoreOracle,
        scoreMethodology o' (scoreMethodology o p).1 = ((scoreMethodology o p).1, 50))) ∧
    (∀ (o : ScoreOracle) (p : Paper) (e : String),
      p.sample_size = none → o.sampleSizeResp = .error e →
      ((scoreSampleSize o p).1).sample_size = none ∧ (scoreSampleSize o p).2 = 50) ∧
    (∀ (o2 : ScoreOracle) (q : Paper), q.sample_size = none →
      ((scoreSampleSize o2 q).1).sample_size = extractSampleSize o2 q) := by
  refine ⟨fun o p hmq hres => ?_, fun o p e hss he => ?_, fun o2 q hq => ?_⟩
  · have hassess : (assessMethodology o p).2 = "unknown" := by
      unfold assessMethodology
      split_ifs with hab
      · rcases hres with ⟨e, he⟩ | ⟨r, hr, hnv⟩
        · rw [he]
        · rw [hr]
          simp only
          rw [if_neg hnv]
      · rfl
    have h1 : ((scoreMethodology o p).1).methodology_quality = some "unknown" := by
      simp only [scoreMethodology, if_pos hmq]
      rw [hassess]
    refine ⟨h1, ?_, fun o' => ?_⟩
    · simp only [scoreMethodology, if_pos hmq]
      rw [hassess]
      rfl
    · rw [scoreMethodology_cached o' _ "unknown" h1]
      rfl
  · have hextr : extractSampleSize o p = none := by
      unfold extractSampleSize
      split_ifs
      · rw [he]
      · rfl
    constructor
    · simp [scoreSampleSize, hss, hextr]
    · simp [scoreSampleSize, hss, hextr]
  · simp [scoreSampleSize, hq]

/-- Witness for C7 (amended) at a concrete input. -/
theorem c7_methodology_caching_witness :
    ((scoreMethodology failExtractionOracle c7Paper).1).methodology_quality = some "unknown" ∧
    (scoreMethodology failExtractionOracle c7Paper).2 = 50 ∧
    ((scoreSampleSize failExtractionOracle c7Paper).1).sample_size = none := by
  have h1 := c7_methodology_caching.1 failExtractionOracle c7Paper rfl
    (Or.inl ⟨"provider down", rfl⟩)
  have h2 := c7_methodology_caching.2.1 failExtractionOracle c7Paper "provider down" rfl rfl
  exact ⟨h1.1, h1.2.1, h2.1⟩

/-- A provider whose note call succeeds but returns the empty string. -/
def c8EmptyOracle : NoteOracle := { providerCtor := .ok (), completeResp := .ok "" }

/-- A provider whose note call succeeds with free-form text. -/
def c8FreeOracle : NoteOracle := { providerCtor := .ok (), completeResp := .ok "Looks fine." }

/-- Counterexample to C8 as stated: when the AI note call *succeeds*, its
trimmed response is returned as-is, so the path can return the empty
string, and a non-empty successful response need not begin with any of the
five qualitative buckets. -/
theorem c8_counterexample :
    generateAICredibilityNote c8EmptyOracle 50 = "" ∧
    generateAICredibilityNote c8FreeOracle 50 = "Looks fine." ∧
    (["Excellent credibility", "High credibility", "Moderate credibility",
      "Mixed credibility", "Low credibility"].all
        (fun b => !(pyStartsWith "Looks fine." b))) = true := by
  refine ⟨by decide, by decide, by decide⟩

/-- Nonemptiness of a string with a non-empty prefix. -/
theorem append_ne_empty (s t : String) (h : s.length ≠ 0) : s ++ t ≠ "" := by
  intro hc
  apply h
  have hl := congrArg String.length hc
  rw [String.length_append] at hl
  have hz : String.length "" = 0 := rfl
  omega

/-- Claim C8 (amended): whenever provider construction or the AI note call
fails, the note path returns the deterministic fallback note — a non-empty
string beginning with one of the five fixed qualitative buckets — and when
the call succeeds, the trimmed provider response is returned; in neither
case does an exception reach the caller. -/
theorem c8_note_fallback :
    (∀ (sc : ℚ) (o : NoteOracle),
      ((∃ e, o.providerCtor = .error e) ∨ (∃ e, o.completeResp = .error e)) →
      generateAICredibilityNote o sc = generateCredibilityNote sc) ∧
    (∀ sc : ℚ,
      generateCredibilityNote sc ≠ "" ∧
      ∃ b r, (b = "Excellent credibility" ∨ b = "High credibility" ∨
              b = "Moderate credibility" ∨ b = "Mixed credibility" ∨
              b = "Low credibility") ∧ generateCredibilityNote sc = b ++ r) ∧
    (∀ (sc : ℚ) (o : NoteOracle) (resp : String),
      o.providerCtor = .ok () → o.completeResp = .ok resp →
      generateAICredibilityNote o sc = pyStrip resp) := by
  refine ⟨fun sc o h => ?_, fun sc => ?_, fun sc o resp hc he => ?_⟩
  · unfold generateAICredibilityNote
    rcases h with ⟨e, he⟩ | ⟨e, he⟩
    · rw [he]
    · cases hc : o.providerCtor with
      | error e2 => rfl
      | ok u => rw [he]
  · have hb : ∃ b r, (b = "Excellent credibility" ∨ b = "High credibility" ∨
        b = "Moderate credibility" ∨ b = "Mixed credibility" ∨
        b = "Low credibility") ∧ generateCredibilityNote sc = b ++ r := by
      refine ⟨noteBucket sc, " (" ++ formatF0 sc ++ "/100). Full AI assessment pending.",
        ?_, ?_⟩
      · unfold noteBucket
        split_ifs <;> simp
      · simp [generateCredibilityNote, String.append_assoc]
    obtain ⟨b, r, hbm, hbe⟩ := hb
    refine ⟨?_, ⟨b, r, hbm, hbe⟩⟩
    rw [hbe]
    apply append_ne_empty
    rcases hbm with rfl | rfl | rfl | rfl | rfl <;> decide
  · unfold generateAICredibilityNote
    rw [hc, he]

/-- Witness for C8 (amended) at a concrete input: a failing provider
construction falls back to the deterministic note. -/
theorem c8_note_fallback_witness :
    generateAICredibilityNote { providerCtor := .error "unknown provider",
                                completeResp := .ok "ignored" } 50
      = generateCredibilityNote 50 :=
  c8_note_fallback.1 50 _ (Or.inl ⟨"unknown provider", rfl⟩)

/-- The spec scenario's preprint item: no impact factor, 5 citations,
published 2 months (60 days) ago, nothing else known. -/
def scenarioPaper1 : Paper :=
  { blankPaper with
    title := "Preprint item"
    citations := some 5
    published_days_ago := some 60
    is_preprint := true
    is_peer_reviewed := false }

/-- The spec scenario's peer-reviewed item: impact factor 10, 50 citations,
published 1 month (30 days) ago, author h-index 40. -/
def scenarioPaper2 : Paper :=
  { blankPaper with
    title := "Peer-reviewed item"
    citations := some 50
    published_days_ago := some 30
    journal_impact_factor := some 10
    is_peer_reviewed := true
    authors := [{ name := "Ada", h_index := some 40 }] }

/-- Counterexample to C9 as stated: the claim's two quoted sub-scores are
wrong on the code.  The journal-impact curve maps impact factor 10 to 60,
not 70, and the citation-velocity curve maps velocity 2.5 to 57.5, which is
not an approximation of 62 (it differs by 4.5). -/
theorem c9_counterexample :
    journalImpactCurve 10 = 60 ∧ ¬ journalImpactCurve 10 = 70 ∧
    scoreJournalImpact scenarioPaper2 = 60 ∧
    citationVelocityCurve (5/2) = 115/2 ∧ ¬ citationVelocityCurve (5/2) = 62 := by
  refine ⟨?_, ?_, ?_, ?_, ?_⟩ <;>
    norm_num [journalImpactCurve, citationVelocityCurve, scoreJournalImpact,
      scenarioPaper2, blankPaper]

/-- Claim C9 (amended): under the default weights the preprint item's
persisted total is 49.8 (the weighted sum is exactly 49.75, with journal,
sample, methodology and author sub-scores neutral at 50, peer-review at 40
and citation velocity 2.5 scoring 57.5) and the peer-reviewed item's total
is 65.9 (journal sub-score 60, peer-review 100, h-index 40 and 50
citations/month), strictly higher than the preprint's. -/
theorem c9_scenario :
    (analyze defaultWeights okScoreOracle scenarioPaper1).2.1 = 249/5 ∧
    (analyze defaultWeights okScoreOracle scenarioPaper2).2.1 = 659/10 ∧
    (analyze defaultWeights okScoreOracle scenarioPaper1).2.1
      < (analyze defaultWeights okScoreOracle scenarioPaper2).2.1 ∧
    citationVelocityCurve (5/2) = 115/2 ∧
    scorePeerReview scenarioPaper1 = 40 ∧
    scorePeerReview scenarioPaper2 = 100 := by
  have h1 : (analyze defaultWeights okScoreOracle scenarioPaper1).2.1 = 249/5 := by
    simp [analyze, scoreJournalImpact, scoreAuthorHindex, scoreSampleSize,
      extractSampleSize, hasAbstract, scoreMethodology, assessMethodology,
      methodologyQualityScore, scorePeerReview, scoreCitationVelocity,
      journalImpactCurve, authorHindexCurve, sampleSizeCurve, citationVelocityCurve,
      scenarioPaper1, blankPaper, defaultWeights, okScoreOracle]
    norm_num [round1, roundHalfEven, qfloor]
  have h2 : (analyze defaultWeights okScoreOracle scenarioPaper2).2.1 = 659/10 := by
    simp [analyze, scoreJournalImpact, scoreAuthorHindex, scoreSampleSize,
      extractSampleSize, hasAbstract, scoreMethodology, assessMethodology,
      methodologyQualityScore, scorePeerReview, scoreCitationVelocity,
      journalImpactCurve, authorHindexCurve, sampleSizeCurve, citationVelocityCurve,
      scenarioPaper2, blankPaper, defaultWeights, okScoreOracle]
    norm_num [round1, roundHalfEven, qfloor]
  refine ⟨h1, h2, ?_, ?_, ?_, ?_⟩
  · rw [h1, h2]; norm_num
  · norm_num [citationVelocityCurve]
  · norm_num [scorePeerReview, scenarioPaper1, blankPaper]
  · norm_num [scorePeerReview, scenarioPaper2, blankPaper]

/-- The final parser state of Summarizer._parse_summary's line loop. -/
def parsedState (response : String) : ParseState :=
  (pySplit (pyStrip response) '\n').foldl parseLine {}

theorem ite_string_default_ne (x d : String) (hd : d ≠ "") :
    (if x = "" then d else x) ≠ "" := by
  split_ifs with h
  · exact hd
  · exact h

theorem ite_list_default_ne (x d : List String) (hd : d ≠ []) :
    (if x = [] then d else x) ≠ [] := by
  split_ifs with h
  · exact hd
  · exact h

/-- Claim C10: the summary parser is total.  For every provider response
string the parsed summary has a non-empty headline, non-empty takeaway,
non-empty why-matters text, exactly three key takeaways and a non-empty tag
list, and each field the response did not supply is filled with its fixed
default text. -/
theorem c10_parser_totality (response : String) :
    (parseSummary response).headline ≠ "" ∧
    (parseSummary response).takeaway ≠ "" ∧
    (parseSummary response).why_matters ≠ "" ∧
    (parseSummary response).key_takeaways.length = 3 ∧
    (parseSummary response).tags ≠ [] ∧
    ((parsedState response).headline = "" →
      (parseSummary response).headline = "Research Finding") ∧
    ((parsedState response).takeaway = "" →
      (parseSummary response).takeaway = "Summary not available.") ∧
    ((parsedState response).why_matters = "" →
      (parseSummary response).why_matters = "Implications being assessed.") ∧
    ((parsedState response).tags = [] →
      (parseSummary response).tags = ["research"]) := by
  simp only [parseSummary, parsedState]
  refine ⟨ite_string_default_ne _ _ (by decide), ite_string_default_ne _ _ (by decide),
    ite_string_default_ne _ _ (by decide), ?_, ite_list_default_ne _ _ (by decide),
    fun h => by rw [if_pos h], fun h => by rw [if_pos h], fun h => by rw [if_pos h],
    fun h => by rw [if_pos h]⟩
  rw [List.length_take, List.length_append, List.length_replicate]
  omega

/-- Witness for C10 at a concrete input: the empty response parses to the
all-defaults summary. -/
theorem c10_parser_totality_witness :
    (parseSummary "").headline = "Research Finding" ∧
    (parseSummary "").takeaway = "Summary not available." ∧
    (parseSummary "").why_matters = "Implications being assessed." ∧
    (parseSummary "").key_takeaways.length = 3 ∧
    (parseSummary "").tags = ["research"] := by
  have h := c10_parser_totality ""
  exact ⟨h.2.2.2.2.2.1 (by decide), h.2.2.2.2.2.2.1 (by decide),
    h.2.2.2.2.2.2.2.1 (by decide), h.2.2.2.1, h.2.2.2.2.2.2.2.2 (by decide)⟩

end PptNewsFeed
